import Mathlib

/-!
Shallow embedding of `src/send_email_reminders.py`, a script that sends
rent-reminder emails to a list of tenants loaded from the `TENANTS`
environment variable and then emails the run log to a landlord address.

Modelling conventions:
* Python values that can appear in a tenant record (they come from
  `json.loads`) are modelled by `PyVal`; Python floats are modelled by
  exact integer fractions plus the special values `inf`, `-inf`, `nan`
  (IEEE rounding of finite values is idealised away).
* Exceptions are modelled by `Except`; raising past a function is the
  `.error` constructor.  The global mutable state (`success_count`,
  `failure_count`, `failed_tenants`) together with the list of attempted
  SMTP sends is the state `St`, threaded explicitly; an escaping
  exception carries the state at raise time, since Python globals keep
  their mutations when an exception propagates.
* The SMTP layer is abstracted by an oracle mapping the index of the
  send attempt to its outcome (success, `smtplib.SMTPException`, or any
  other exception).
-/

/-- An exact fraction `num / den` (`den` positive by construction; the
fraction is kept unreduced so every operation is plain integer
arithmetic). -/
structure Frac where
  num : ℤ
  den : ℕ
deriving Repr, DecidableEq

/-- Model of a Python float: an exact fraction or one of the special
values.  `float('inf')`, `float('-inf')`, `float('nan')` are the
specials; finite values are idealised as exact fractions (IEEE rounding
is not modelled). -/
inductive PyFloat where
  | finite (q : Frac)
  | inf
  | ninf
  | nan
deriving Repr, DecidableEq

/-- Model of the Python values a tenant record can contain (the image of
`json.loads`): `None`, booleans, ints, floats, strings, lists and
string-keyed dicts (association list, later bindings shadow earlier
ones, as produced by repeated `dict.__setitem__`). -/
inductive PyVal where
  | none
  | bool (b : Bool)
  | int (n : ℤ)
  | float (f : PyFloat)
  | str (s : String)
  | list (xs : List PyVal)
  | dict (kvs : List (String × PyVal))
deriving Repr

/-- Model of the Python exceptions the script can raise or catch.  All
of them derive from `Exception`, so the outer `except Exception`
handler in `send_email_reminder` catches every one of them; the inner
handlers catch only the listed classes.  The string is `str(e)`. -/
inductive PyErr where
  | typeError (msg : String)
  | valueError (msg : String)
  | keyError (msg : String)
  | attributeError (msg : String)
  | smtpException (msg : String)
  | otherException (msg : String)
deriving Repr, DecidableEq

/-- `str(e)` of a modelled exception. -/
def PyErr.msg : PyErr → String
  | .typeError m | .valueError m | .keyError m
  | .attributeError m | .smtpException m | .otherException m => m

/-- Whether an exception is caught by `except (ValueError, TypeError)`
(the inner handler around `float(tenant['payment_amount'])`). -/
def PyErr.isValueOrTypeError : PyErr → Bool
  | .typeError _ | .valueError _ => true
  | _ => false

/-- Last-wins lookup in a Python dict modelled as an association list. -/
def dictGet (kvs : List (String × PyVal)) (k : String) : Option PyVal :=
  ((kvs.reverse.find? (fun p => p.1 == k)).map (fun p => p.2))

/-- `k in d` for a dict: key membership. -/
def hasKey (kvs : List (String × PyVal)) (k : String) : Bool :=
  kvs.any (fun p => p.1 == k)

/-- Substring test on character lists: does `hay` contain `needle` as a
contiguous infix? -/
def listContainsSub (hay needle : List Char) : Bool :=
  if needle.isPrefixOf hay then true
  else
    match hay with
    | [] => false
    | _ :: t => listContainsSub t needle

/-- Substring test on strings (the observable "the message contains
…"). -/
def strContains (hay needle : String) : Bool :=
  listContainsSub hay.data needle.data

/-- `field in tenant` for an arbitrary Python value: key membership for
dicts, substring for strings, element equality for lists (the needle is
always a field-name string here, and in Python a string compares equal
only to an equal string), and `TypeError` for non-iterables. -/
def pyContains (v : PyVal) (k : String) : Except PyErr Bool :=
  match v with
  | .dict kvs => .ok (hasKey kvs k)
  | .str s => .ok (listContainsSub s.data k.data)
  | .list xs => .ok (xs.any (fun x => match x with | .str s => s == k | _ => false))
  | _ => .error (.typeError "argument is not iterable")

/-- `tenant.get(k, default)`: only dicts have a `get` attribute; every
other value raises `AttributeError`. -/
def pyGet (v : PyVal) (k : String) (default : PyVal) : Except PyErr PyVal :=
  match v with
  | .dict kvs => .ok ((dictGet kvs k).getD default)
  | _ => .error (.attributeError "object has no attribute get")

/-- `tenant[k]` with a string key: dict lookup (`KeyError` when
absent); strings and lists require integer indices (`TypeError`); other
values are not subscriptable (`TypeError`). -/
def pyGetItem (v : PyVal) (k : String) : Except PyErr PyVal :=
  match v with
  | .dict kvs =>
    match dictGet kvs k with
    | some x => .ok x
    | Option.none => .error (.keyError k)
  | .str _ => .error (.typeError "string indices must be integers")
  | .list _ => .error (.typeError "list indices must be integers")
  | _ => .error (.typeError "object is not subscriptable")

/-- ASCII whitespace stripped by `int()` / `float()` string conversion. -/
def isPySpace (c : Char) : Bool :=
  c == ' ' || c == '\t' || c == '\n' || c == '\r' || c == '\x0b' || c == '\x0c'

/-- Python numeric literals allow single underscores between digits;
this checks every underscore is directly surrounded by digits. -/
def underscoresOk : List Char → Bool
  | [] => true
  | '_' :: _ => false
  | [_] => true
  | a :: '_' :: c :: t => a.isDigit && c.isDigit && underscoresOk (c :: t)
  | _ :: b :: t => underscoresOk (b :: t)

/-- Digit run to a natural number; `Option.none` when empty or non-digit. -/
def digitsToNat : List Char → Option ℕ
  | [] => Option.none
  | l =>
    if l.all Char.isDigit then
      some (l.foldl (fun acc c => acc * 10 + (c.toNat - '0'.toNat)) 0)
    else Option.none

/-- Strip leading and trailing whitespace and underscores-between-digits,
returning the cleaned character list, or `Option.none` when the
underscore placement is illegal. -/
def cleanNumeric (s : String) : Option (List Char) :=
  let l := (s.data.dropWhile isPySpace).reverse.dropWhile isPySpace |>.reverse
  if underscoresOk l then some (l.filter (fun c => c != '_')) else Option.none

/-- Model of Python `int(s)` on a string: optional sign, nonempty digit
run (after whitespace stripping and underscore removal). -/
def pyIntOfString (s : String) : Option ℤ :=
  match cleanNumeric s with
  | Option.none => Option.none
  | some l =>
    match l with
    | '+' :: t => (digitsToNat t).map (fun n => (n : ℤ))
    | '-' :: t => (digitsToNat t).map (fun n => -(n : ℤ))
    | t => (digitsToNat t).map (fun n => (n : ℤ))

/-- Split a character list at the first `e`/`E` (exponent marker). -/
def splitExp : List Char → List Char × Option (List Char)
  | [] => ([], Option.none)
  | c :: t =>
    if c == 'e' || c == 'E' then ([], some t)
    else
      let (m, e) := splitExp t
      (c :: m, e)

/-- Split a character list at the first `.`. -/
def splitDot : List Char → List Char × Option (List Char)
  | [] => ([], Option.none)
  | c :: t =>
    if c == '.' then ([], some t)
    else
      let (m, e) := splitDot t
      (c :: m, e)

/-- Parse the signed exponent of a float literal. -/
def parseExp (l : List Char) : Option ℤ :=
  match l with
  | '+' :: t => (digitsToNat t).map (fun n => (n : ℤ))
  | '-' :: t => (digitsToNat t).map (fun n => -(n : ℤ))
  | t => (digitsToNat t).map (fun n => (n : ℤ))

/-- Parse the unsigned mantissa-and-exponent part of a Python float
literal: `digits [. digits] [(e|E) [sign] digits]`, needing at least
one digit in the integer or fractional part. -/
def parseMantissa (l : List Char) : Option Frac :=
  let (mant, expPart) := splitExp l
  let (ipart, fpartOpt) := splitDot mant
  let fpart := fpartOpt.getD []
  if ipart.isEmpty && fpart.isEmpty then Option.none
  else if !(ipart.all Char.isDigit) || !(fpart.all Char.isDigit) then Option.none
  else
    let iv : ℕ := (ipart.foldl (fun acc c => acc * 10 + (c.toNat - '0'.toNat)) 0)
    let fv : ℕ := (fpart.foldl (fun acc c => acc * 10 + (c.toNat - '0'.toNat)) 0)
    let base : Frac := ⟨(iv * 10 ^ fpart.length + fv : ℕ), 10 ^ fpart.length⟩
    match expPart with
    | Option.none => some base
    | some e =>
      match parseExp e with
      | Option.none => Option.none
      | some n =>
        if 0 ≤ n then some ⟨base.num * 10 ^ n.toNat, base.den⟩
        else some ⟨base.num, base.den * 10 ^ (-n).toNat⟩

/-- Model of Python `float(s)` on a string: whitespace stripping,
optional sign, then a numeric literal or one of `inf`, `infinity`,
`nan` (case-insensitive). -/
def pyFloatOfString (s : String) : Option PyFloat :=
  match cleanNumeric s with
  | Option.none => Option.none
  | some l =>
    let (sgn, body) :=
      match l with
      | '+' :: t => (1, t)
      | '-' :: t => (-1, t)
      | t => ((1 : ℤ), t)
    let low := body.map Char.toLower
    if low == "inf".data || low == "infinity".data then
      some (if sgn == 1 then PyFloat.inf else PyFloat.ninf)
    else if low == "nan".data then some PyFloat.nan
    else
      match parseMantissa body with
      | Option.none => Option.none
      | some q => some (.finite (if sgn == 1 then q else ⟨-q.num, q.den⟩))

/-- Model of Python `float(x)` on a tenant-record value: ints and bools
convert exactly, floats pass through, strings parse, and `None`, lists
and dicts raise `TypeError`; unparsable strings raise `ValueError`. -/
def pyFloat : PyVal → Except PyErr PyFloat
  | .int n => .ok (.finite ⟨n, 1⟩)
  | .bool b => .ok (.finite (if b then ⟨1, 1⟩ else ⟨0, 1⟩))
  | .float f => .ok f
  | .str s =>
    match pyFloatOfString s with
    | some f => .ok f
    | Option.none => .error (.valueError ("could not convert string to float: " ++ s))
  | _ => .error (.typeError "float argument must be a string or a real number")

/-- Round the nonnegative fraction `a / d` to a natural number, ties to
even (the rounding used by `format(x, '.2f')`). -/
def roundHalfEven (a d : ℕ) : ℕ :=
  let q := a / d
  let r := a % d
  if d < 2 * r then q + 1
  else if 2 * r < d then q
  else if q % 2 = 0 then q else q + 1

/-- Two-digit zero-padded rendering of a number below 100. -/
def twoDigits (n : ℕ) : String :=
  if n < 10 then "0" ++ toString n else toString n

/-- Model of the f-string conversion `f"{x:.2f}"`. -/
def formatDot2f (f : PyFloat) : String :=
  match f with
  | .inf => "inf"
  | .ninf => "-inf"
  | .nan => "nan"
  | .finite q =>
    let neg := q.num < 0
    let cents := roundHalfEven (q.num.natAbs * 100) q.den
    let s := toString (cents / 100) ++ "." ++ twoDigits (cents % 100)
    if neg then "-" ++ s else s

/-- Python `repr` of a float, used only inside `str` of containers;
finite values are shown as `num` or `num/den` (an idealisation — no
claim depends on it). -/
def pyFloatRepr (f : PyFloat) : String :=
  match f with
  | .inf => "inf"
  | .ninf => "-inf"
  | .nan => "nan"
  | .finite q =>
    if q.num % (q.den : ℤ) = 0 then toString (q.num / (q.den : ℤ)) ++ ".0"
    else toString q.num ++ "/" ++ toString q.den

mutual

/-- Model of Python `str(x)` as used by f-string interpolation. -/
def pyStr : PyVal → String
  | .none => "None"
  | .bool b => if b then "True" else "False"
  | .int n => toString n
  | .float f => pyFloatRepr f
  | .str s => s
  | .list xs => "[" ++ ", ".intercalate (pyReprList xs) ++ "]"
  | .dict kvs => "dict" ++ "[" ++ ", ".intercalate (pyReprKvs kvs) ++ "]"

/-- `repr` of list elements (strings get quoted; the quote character is
idealised by doubled quoting marks irrelevant to any claim). -/
def pyReprList : List PyVal → List String
  | [] => []
  | x :: t =>
    (match x with
     | .str s => "<" ++ s ++ ">"
     | v => pyStr v) :: pyReprList t

/-- `repr` of dict entries. -/
def pyReprKvs : List (String × PyVal) → List String
  | [] => []
  | (k, v) :: t =>
    ("<" ++ k ++ ">: " ++
      (match v with
       | .str s => "<" ++ s ++ ">"
       | w => pyStr w)) :: pyReprKvs t

end

/-- One entry of the global `failed_tenants` list: the code stores the
raw values of `tenant.get("name"/"email", "Unknown")` and a formatted
reason string. -/
structure FailedTenant where
  tenant : PyVal
  email : PyVal
  reason : String
deriving Repr

/-- The script's global mutable state: `success_count`,
`failure_count`, `failed_tenants`, plus the list of attempted SMTP
message sends `(recipient, body)` (one entry per entered
`with smtplib.SMTP(...)` block in `send_email_reminder`). -/
structure St where
  success_count : ℕ
  failure_count : ℕ
  failed_tenants : List FailedTenant
  sends : List (String × String)
deriving Repr

/-- The state at module initialisation (lines 82–85 of the source). -/
def initialState : St := ⟨0, 0, [], []⟩

/-- Outcome of one attempted SMTP session: normal completion, an
`smtplib.SMTPException`, or any other exception raised inside the
`with` block. -/
inductive SendOutcome where
  | ok
  | smtpErr (msg : String)
  | otherErr (msg : String)

/-- The SMTP environment, abstracted: the outcome of the n-th attempted
tenant send of the run (0-based). -/
def Oracle := ℕ → SendOutcome

/-- Lift a pure-Python-exception result into the state-carrying error
monad: an escaping exception leaves the given state behind. -/
def withSt (st : St) : Except PyErr α → Except (St × PyErr) α
  | .ok a => .ok a
  | .error e => .error (st, e)

/-- `tenant.get(k, d)` at a point where a previous `tenant.get` in the
same statement has already succeeded (so `tenant` is a dict and this
cannot raise). -/
def pyGetD (v : PyVal) (k : String) (default : PyVal) : PyVal :=
  (pyGet v k default).toOption.getD default

/-- The fixed HTML template of `send_email_reminder` (lines 130–174),
with the four interpolation points substituted; `amount` stands for
`f"{payment_amount:.2f}"`. -/
def renderBody (name amount location description : String) : String :=
  "\n".intercalate
    [ "        <html>"
    , "        <head>"
    , "            <style>"
    , "                /* Fallback styles can be placed here */"
    , "            </style>"
    , "        </head>"
    , "        <body>"
    , "            <p>Dear " ++ name ++ ",</p>"
    , "            <p>"
    , "                This is a friendly reminder that your rent payment of <strong>$" ++ amount ++ "</strong> is due soon."
    , "            </p>"
    , "            <p>"
    , "                <strong>Payment Details:</strong><br>"
    , "                Property: " ++ location ++ "<br>"
    , "                Description: " ++ description ++ "<br>"
    , "                Amount: <strong>$" ++ amount ++ "</strong>"
    , "            </p>"
    , "            <p>"
    , "                If payment is not received by the 5th day of the month, a 10% late fee will be imposed."
    , "            </p>"
    , "            <p>"
    , "            <!-- Buttons Section -->"
    , "            <p>"
    , "                <a href=\"https://app.payrent.com/sign-in\""
    , "                   style=\""
    , "                       display: inline-block;"
    , "                       padding: 10px 20px;"
    , "                       font-size: 16px;"
    , "                       color: #ffffff;"
    , "                       background-color: #ff9500;"
    , "                       text-decoration: none;"
    , "                       border-radius: 5px;"
    , "                       margin-right: 10px;"
    , "                   \">"
    , "                    Pay Now"
    , "                </a>"
    , "            </p>"
    , "                If you have any questions or need more information, please visit:"
    , "                <a href=\"https://segundorentalservices.net/\" style=\"color: #1a0dab; text-decoration: none;\">https://segundorentalservices.net/</a>"
    , "            </p>"
    , "            <p>Thank you!<br><br>Have a great day!</p>"
    , "        </body>"
    , "        </html>"
    , "        " ]

/-- The body of the outer `try` of `send_email_reminder` (lines
96–203): field validation, amount conversion with its inner handler,
template rendering, and the SMTP block with its
`except smtplib.SMTPException` handler.  Mutations made before an
escaping exception are kept in the carried state, mirroring Python
globals. -/
def send_email_reminder_body (oracle : Oracle) (st : St) (tenant : PyVal) :
    Except (St × PyErr) St := do
  let m1 ← withSt st (pyContains tenant "email")
  let m2 ← withSt st (pyContains tenant "name")
  let m3 ← withSt st (pyContains tenant "payment_amount")
  let m4 ← withSt st (pyContains tenant "payment_description")
  let missing_fields : List String :=
    (if m1 then [] else ["email"]) ++ (if m2 then [] else ["name"]) ++
    (if m3 then [] else ["payment_amount"]) ++ (if m4 then [] else ["payment_description"])
  if missing_fields = [] then
    match (pyGetItem tenant "payment_amount").bind pyFloat with
    | .error e =>
      if e.isValueOrTypeError then
        -- the handler's logging f-string evaluates tenant.get(...) before the increment
        let _ ← withSt st (pyGet tenant "name" (.str "Unknown"))
        let pa := pyGetD tenant "payment_amount" .none
        let st1 : St := { st with failure_count := st.failure_count + 1 }
        return { st1 with failed_tenants := st1.failed_tenants ++
          [⟨pyGetD tenant "name" (.str "Unknown"), pyGetD tenant "email" (.str "Unknown"),
            "Invalid payment_amount: " ++ pyStr pa⟩] }
      else
        Except.error (st, e)
    | .ok payment_amount =>
      -- interpolations of the body f-string, in template order
      let nmv ← withSt st (pyGetItem tenant "name")
      let locv ← withSt st (pyGet tenant "property_location" (.str "N/A"))
      let descv ← withSt st (pyGetItem tenant "payment_description")
      let body := renderBody (pyStr nmv) (formatDot2f payment_amount) (pyStr locv) (pyStr descv)
      let emv ← withSt st (pyGetItem tenant "email")
      -- `with smtplib.SMTP(...)`: the send attempt is recorded, the oracle decides
      let stA : St := { st with sends := st.sends ++ [(pyStr emv, body)] }
      match oracle st.sends.length with
      | .ok => return { stA with success_count := stA.success_count + 1 }
      | .smtpErr m =>
        let _ ← withSt stA (pyGet tenant "email" (.str "Unknown"))
        let st1 : St := { stA with failure_count := stA.failure_count + 1 }
        return { st1 with failed_tenants := st1.failed_tenants ++
          [⟨pyGetD tenant "name" (.str "Unknown"), pyGetD tenant "email" (.str "Unknown"),
            "SMTP error: " ++ m⟩] }
      | .otherErr m => Except.error (stA, .otherException m)
  else
    -- logging.error (raises nothing), then the increment, then the append,
    -- whose dict literal evaluates tenant.get("name", ...) first
    let st1 : St := { st with failure_count := st.failure_count + 1 }
    let nm ← withSt st1 (pyGet tenant "name" (.str "Unknown"))
    return { st1 with failed_tenants := st1.failed_tenants ++
      [⟨nm, pyGetD tenant "email" (.str "Unknown"),
        "Missing fields: " ++ ", ".intercalate missing_fields⟩] }

/-- `send_email_reminder` (lines 88–213): the outer
`except Exception` handler around the body.  Its logging f-string
evaluates `tenant.get('email', 'Unknown')`, which itself raises
`AttributeError` when `tenant` is not a dict — in that case the new
exception escapes the function. -/
def send_email_reminder (oracle : Oracle) (st : St) (tenant : PyVal) :
    Except (St × PyErr) St :=
  match send_email_reminder_body oracle st tenant with
  | .ok st1 => .ok st1
  | .error (st1, e) =>
    match pyGet tenant "email" (.str "Unknown") with
    | .error e2 => .error (st1, e2)
    | .ok _ =>
      let st2 : St := { st1 with failure_count := st1.failure_count + 1 }
      .ok { st2 with failed_tenants := st2.failed_tenants ++
        [⟨pyGetD tenant "name" (.str "Unknown"), pyGetD tenant "email" (.str "Unknown"),
          "Unexpected error: " ++ e.msg⟩] }

/-- The `for tenant in TENANTS` loop (lines 273–274): an exception
escaping `send_email_reminder` aborts the remaining iterations. -/
def runTenantLoop (oracle : Oracle) : List PyVal → St → Except (St × PyErr) St
  | [], st => .ok st
  | t :: ts, st =>
    match send_email_reminder oracle st t with
    | .ok st1 => runTenantLoop oracle ts st1
    | .error r => .error r

/-- `send_emails_to_all_tenants` (lines 265–274): early return (with a
logged warning) on an empty tenant list, otherwise the loop. -/
def send_emails_to_all_tenants (oracle : Oracle) (tenants : List PyVal) (st : St) :
    Except (St × PyErr) St :=
  match tenants with
  | [] => .ok st
  | _ :: _ => runTenantLoop oracle tenants st

/-- The two phases of a run. -/
inductive Phase where
  | SendingReminders
  | SendingLog
deriving DecidableEq, Repr

/-- `send_log_email` (lines 216–262): its entire body is wrapped in
`try`/`except smtplib.SMTPException`/`except Exception`, so for every
outcome of its SMTP session (and whether or not the log file exists)
it returns normally; its only observable effects are log lines. -/
def send_log_email (_outcome : SendOutcome) : Except PyErr Unit := .ok ()

/-- Result of `check_and_send_email`: the phases that were entered, in
order, and either the final state or the escaping exception with the
state at that moment. -/
structure RunOutcome where
  phases : List Phase
  result : Except (St × PyErr) St

/-- `check_and_send_email` (lines 277–282): the reminder phase, then —
only if it did not raise — the log phase. -/
def check_and_send_email (oracle : Oracle) (logOutcome : SendOutcome)
    (tenants : List PyVal) : RunOutcome :=
  match send_emails_to_all_tenants oracle tenants initialState with
  | .error r => ⟨[.SendingReminders], .error r⟩
  | .ok st =>
    match send_log_email logOutcome with
    | _ => ⟨[.SendingReminders, .SendingLog], .ok st⟩

/-- JSON whitespace. -/
def jsonWs (c : Char) : Bool :=
  c == ' ' || c == '\t' || c == '\n' || c == '\r'

/-- Skip JSON whitespace. -/
def skipWs (l : List Char) : List Char := l.dropWhile jsonWs

/-- Split off a leading digit run. -/
def takeDigits (l : List Char) : List Char × List Char :=
  (l.takeWhile Char.isDigit, l.dropWhile Char.isDigit)

/-- Parse a JSON number (`-?(0|[1-9][0-9]*)(\.[0-9]+)?([eE][+-]?[0-9]+)?`):
an `int` when it has no fraction and no exponent, otherwise a `float`,
as `json.loads` produces. -/
def parseJsonNumber (l : List Char) : Option (PyVal × List Char) :=
  let (neg, l1) := match l with | '-' :: t => (true, t) | t => (false, t)
  let (ds, l2) := takeDigits l1
  if ds.isEmpty then Option.none
  else if ds.length > 1 && ds.head? == some '0' then Option.none
  else
    let iv : ℕ := ds.foldl (fun acc c => acc * 10 + (c.toNat - '0'.toNat)) 0
    let (frac, l3) :=
      match l2 with
      | '.' :: r =>
        let (fs, r2) := takeDigits r
        if fs.isEmpty then (Option.none, l2) else (some fs, r2)
      | _ => (Option.none, l2)
    if frac.isNone && (match l2 with | '.' :: _ => true | _ => false) then Option.none
    else
      let (ex, l4) :=
        match l3 with
        | c :: r =>
          if c == 'e' || c == 'E' then
            match r with
            | '+' :: r2 => (let (es, r3) := takeDigits r2; (some (true, es), r3))
            | '-' :: r2 => (let (es, r3) := takeDigits r2; (some (false, es), r3))
            | _ => (let (es, r3) := takeDigits r; (some (true, es), r3))
          else (Option.none, l3)
        | [] => (Option.none, l3)
      match ex with
      | some (_, []) => Option.none
      | some (pos, es) =>
        let ev : ℕ := es.foldl (fun acc c => acc * 10 + (c.toNat - '0'.toNat)) 0
        let fv : ℕ := (frac.getD []).foldl (fun acc c => acc * 10 + (c.toNat - '0'.toNat)) 0
        let flen := (frac.getD []).length
        let mant : Frac := ⟨(iv * 10 ^ flen + fv : ℕ), 10 ^ flen⟩
        let mag : Frac :=
          if pos then ⟨mant.num * 10 ^ ev, mant.den⟩ else ⟨mant.num, mant.den * 10 ^ ev⟩
        some (.float (.finite (if neg then ⟨-mag.num, mag.den⟩ else mag)), l4)
      | Option.none =>
        match frac with
        | some fs =>
          let fv : ℕ := fs.foldl (fun acc c => acc * 10 + (c.toNat - '0'.toNat)) 0
          let mant : Frac := ⟨(iv * 10 ^ fs.length + fv : ℕ), 10 ^ fs.length⟩
          some (.float (.finite (if neg then ⟨-mant.num, mant.den⟩ else mant)), l3)
        | Option.none =>
          some (.int (if neg then -(iv : ℤ) else (iv : ℤ)), l3)

/-- Hex digit value, as the digit's position in the hex alphabet
(case-insensitive). -/
def hexVal (c : Char) : Option ℕ :=
  let ds := "0123456789abcdef".data
  let i := ds.indexOf c.toLower
  if i < ds.length then some i else Option.none

/-- The single-character JSON escapes and their values. -/
def unescapeChar (e : Char) : Option Char :=
  List.lookup e
    [('"', '"'), ('\\', '\\'), ('/', '/'), ('b', '\x08'), ('f', '\x0c'),
     ('n', '\n'), ('r', '\r'), ('t', '\t')]

/-- Parse the remainder of a JSON string (after the opening quote),
with the standard escapes; control characters are rejected
(`json.loads` default `strict=True`). -/
def parseJsonStringAux : ℕ → List Char → List Char → Option (String × List Char)
  | 0, _, _ => Option.none
  | fuel + 1, acc, l =>
    match l with
    | [] => Option.none
    | '"' :: t => some (String.mk acc.reverse, t)
    | '\\' :: e :: t =>
      if e == 'u' then
        let hs := t.take 4
        if hs.length == 4 && hs.all (fun c => (hexVal c).isSome) then
          parseJsonStringAux fuel
            (Char.ofNat (hs.foldl (fun acc2 c => acc2 * 16 + (hexVal c).getD 0) 0) :: acc)
            (t.drop 4)
        else Option.none
      else
        match unescapeChar e with
        | some c2 => parseJsonStringAux fuel (c2 :: acc) t
        | Option.none => Option.none
    | c :: t =>
      if c.toNat < 0x20 then Option.none
      else parseJsonStringAux fuel (c :: acc) t

/-- Consume a literal keyword when it prefixes the input. -/
def dropLit (lit : String) (l : List Char) : Option (List Char) :=
  if lit.data.isPrefixOf l then some (l.drop lit.data.length) else Option.none

/-- The JSON keywords `json.loads` accepts (the last three are the
Python extensions), with the values they decode to. -/
def jsonKeywords : List (String × PyVal) :=
  [("null", .none), ("true", .bool true), ("false", .bool false),
   ("NaN", .float .nan), ("Infinity", .float .inf), ("-Infinity", .float .ninf)]

/-- Decode a leading keyword, if any. -/
def matchJsonKeyword (l : List Char) : Option (PyVal × List Char) :=
  (jsonKeywords.filterMap (fun kw => (dropLit kw.1 l).map (fun r => (kw.2, r)))).head?

mutual

/-- Parse one JSON value (fuel-based recursive descent modelling
`json.loads`, which also accepts the Python extensions `NaN`,
`Infinity`, `-Infinity`). -/
def parseJsonValue : ℕ → List Char → Option (PyVal × List Char)
  | 0, _ => Option.none
  | fuel + 1, l =>
    match matchJsonKeyword (skipWs l) with
    | some vr => some vr
    | Option.none =>
      match skipWs l with
      | '"' :: t => (parseJsonStringAux fuel [] t).map (fun p => (.str p.1, p.2))
      | '[' :: t =>
        (match skipWs t with
         | ']' :: r => some (.list [], r)
         | t2 => parseJsonArrayItems fuel [] t2)
      | '{' :: t =>
        (match skipWs t with
         | '}' :: r => some (.dict [], r)
         | t2 => parseJsonObjectItems fuel [] t2)
      | l2 => parseJsonNumber l2

/-- Parse the comma-separated items of a JSON array, up to `]`. -/
def parseJsonArrayItems : ℕ → List PyVal → List Char → Option (PyVal × List Char)
  | 0, _, _ => Option.none
  | fuel + 1, acc, l =>
    match parseJsonValue fuel l with
    | Option.none => Option.none
    | some (v, r) =>
      match skipWs r with
      | ',' :: r2 => parseJsonArrayItems fuel (v :: acc) r2
      | ']' :: r2 => some (.list (v :: acc).reverse, r2)
      | _ => Option.none

/-- Parse the `"key": value` members of a JSON object, up to `}`. -/
def parseJsonObjectItems : ℕ → List (String × PyVal) → List Char →
    Option (PyVal × List Char)
  | 0, _, _ => Option.none
  | fuel + 1, acc, l =>
    match skipWs l with
    | '"' :: t =>
      match parseJsonStringAux fuel [] t with
      | Option.none => Option.none
      | some (k, r) =>
        match skipWs r with
        | ':' :: r2 =>
          match parseJsonValue fuel r2 with
          | Option.none => Option.none
          | some (v, r3) =>
            match skipWs r3 with
            | ',' :: r4 => parseJsonObjectItems fuel ((k, v) :: acc) r4
            | '}' :: r4 => some (.dict ((k, v) :: acc).reverse, r4)
            | _ => Option.none
        | _ => Option.none
    | _ => Option.none

end

/-- Model of `json.loads`: parse one value and require only whitespace
after it; `Option.none` models `json.JSONDecodeError`. -/
def json_loads (s : String) : Option PyVal :=
  match parseJsonValue (2 * s.data.length + 2) s.data with
  | Option.none => Option.none
  | some (v, r) => if (skipWs r).isEmpty then some v else Option.none

/-- The process environment as seen through `os.getenv`: the six
variables the script reads. -/
structure Env where
  SMTP_SERVER : Option String
  SMTP_PORT : Option String
  EMAIL_ADDRESS : Option String
  EMAIL_PASSWORD : Option String
  LANDLORD_EMAIL : Option String
  TENANTS : Option String

/-- Python truthiness test `not var_value` for an `os.getenv` result:
true for an absent variable (`None`) and for the empty string. -/
def falsy : Option String → Bool
  | Option.none => true
  | some s => s == ""

/-- `missing_smtp_vars` (lines 41–50): the names of the five required
settings that are absent or empty, in the order the source checks
them. -/
def missing_smtp_vars (e : Env) : List String :=
  (if falsy e.SMTP_SERVER then ["SMTP_SERVER"] else []) ++
  (if falsy e.SMTP_PORT then ["SMTP_PORT"] else []) ++
  (if falsy e.EMAIL_ADDRESS then ["EMAIL_ADDRESS"] else []) ++
  (if falsy e.EMAIL_PASSWORD then ["EMAIL_PASSWORD"] else []) ++
  (if falsy e.LANDLORD_EMAIL then ["LANDLORD_EMAIL"] else [])

/-- Result of loading `TENANTS` (lines 57–72): the tenant list and
whether an error was logged about the variable. -/
structure TenantsLoad where
  tenants : List PyVal
  errorLogged : Bool
deriving Repr

/-- Lines 57–72: absent/empty variable, invalid JSON, or JSON that is
not an array all yield the empty list with a logged error; a JSON
array becomes the tenant list. -/
def load_TENANTS (v : Option String) : TenantsLoad :=
  if falsy v then ⟨[], true⟩
  else
    match json_loads (v.getD "") with
    | Option.none => ⟨[], true⟩
    | some (.list xs) => ⟨xs, false⟩
    | some _ => ⟨[], true⟩

/-- Final observable result of one process run of the script. -/
inductive ScriptResult where
  | configExit (missing : List String)
  /-- `exit(1)` at line 80: `int(SMTP_PORT)` raised `ValueError`. -/
  | portExit (port : String)
  /-- An exception escaped `check_and_send_email`; the interpreter
  prints a traceback and exits with code 1.  The state at the crash is
  kept. -/
  | crashed (st : St) (e : PyErr)
  /-- Normal completion (implicit exit code 0). -/
  | completed (st : St)

/-- Process exit code of a run. -/
def ScriptResult.exitCode : ScriptResult → ℕ
  | .configExit _ => 1
  | .portExit _ => 1
  | .crashed _ _ => 1
  | .completed _ => 0

/-- The SMTP message sends attempted during the run (none for the
configuration exits, which happen before any SMTP code runs). -/
def ScriptResult.sends : ScriptResult → List (String × String)
  | .configExit _ => []
  | .portExit _ => []
  | .crashed st _ => st.sends
  | .completed st => st.sends

/-- Whether the log-email phase was reached. -/
def ScriptResult.logPhaseRan : ScriptResult → Bool
  | .completed _ => true
  | _ => false

/-- The whole script, module level plus `__main__` (lines 34–287):
validate the five settings (exit 1 on any missing), load `TENANTS`
(never exits), parse the port (exit 1 on failure), then
`check_and_send_email()`. -/
def runScript (env : Env) (oracle : Oracle) (logOutcome : SendOutcome) : ScriptResult :=
  match missing_smtp_vars env with
  | _ :: _ => .configExit (missing_smtp_vars env)
  | [] =>
    let tload := load_TENANTS env.TENANTS
    let portStr := env.SMTP_PORT.getD ""
    match pyIntOfString portStr with
    | Option.none => .portExit portStr
    | some _port =>
      match (check_and_send_email oracle logOutcome tload.tenants).result with
      | .error (st, e) => .crashed st e
      | .ok st => .completed st

/-- Lines 98–99: the required tenant fields, in source order. -/
def required_fields : List String :=
  ["email", "name", "payment_amount", "payment_description"]

/-- Lines 100–101 specialised to a dict tenant: the required fields not
present as keys, in source order. -/
def missing_fields (kvs : List (String × PyVal)) : List String :=
  (if hasKey kvs "email" then [] else ["email"]) ++
  (if hasKey kvs "name" then [] else ["name"]) ++
  (if hasKey kvs "payment_amount" then [] else ["payment_amount"]) ++
  (if hasKey kvs "payment_description" then [] else ["payment_description"])

/-- Map a state transformer over both the normal and the exceptional
result of a tenant step. -/
def mapShift (f : St → St) : Except (St × PyErr) St → Except (St × PyErr) St
  | .ok st => .ok (f st)
  | .error (st, e) => .error (f st, e)

/-- Add counter state left over from some earlier activity (as if the
globals had not been reset) in front of a state; the send-attempt list
is left alone. -/
def addPrior (a b : ℕ) (l : List FailedTenant) (st : St) : St :=
  ⟨a + st.success_count, b + st.failure_count, l ++ st.failed_tenants, st.sends⟩

/-- The valid example tenant of the spec:
`{email:"a@x.com", name:"Jo", payment_amount:"950.5", payment_description:"May rent"}`. -/
def tenantJo : PyVal := .dict
  [("email", .str "a@x.com"), ("name", .str "Jo"),
   ("payment_amount", .str "950.5"), ("payment_description", .str "May rent")]

/-- First tenant of the three-tenant scenario (valid). -/
def tenantOne : PyVal := .dict
  [("email", .str "t1@x.com"), ("name", .str "Ann"),
   ("payment_amount", .str "100"), ("payment_description", .str "rent")]

/-- Second tenant of the three-tenant scenario (fails validation:
`payment_amount` missing). -/
def tenantTwo : PyVal := .dict
  [("email", .str "t2@x.com"), ("name", .str "Bob"),
   ("payment_description", .str "rent")]

/-- Third tenant of the three-tenant scenario (valid). -/
def tenantThree : PyVal := .dict
  [("email", .str "t3@x.com"), ("name", .str "Cal"),
   ("payment_amount", .str "200"), ("payment_description", .str "rent")]

/-- A fully populated, well-formed environment whose `TENANTS` value is
the JSON array `[5]` — a list whose only record is not a mapping. -/
def envWithIntTenant : Env :=
  ⟨some "smtp.example.com", some "587", some "sender@example.com",
   some "hunter2", some "landlord@example.com", some "[5]"⟩

/-- The inline list comprehension of lines 100–101, specialised to a
dict tenant, computes exactly the required fields whose key is absent,
in source order. -/
theorem missing_fields_eq_filter (kvs : List (String × PyVal)) :
    missing_fields kvs = required_fields.filter (fun f => !(hasKey kvs f)) := by
  unfold missing_fields required_fields
  cases h1 : hasKey kvs "email" <;> cases h2 : hasKey kvs "name" <;>
    cases h3 : hasKey kvs "payment_amount" <;> cases h4 : hasKey kvs "payment_description" <;>
    simp [List.filter, h1, h2, h3, h4]

/-- A successful dict lookup means the key is present. -/
theorem hasKey_of_dictGet {kvs : List (String × PyVal)} {k : String} {v : PyVal}
    (h : dictGet kvs k = some v) : hasKey kvs k = true := by
  unfold dictGet at h
  obtain ⟨p, hfind, hv⟩ := Option.map_eq_some'.mp h
  have hmem := List.mem_of_find?_eq_some hfind
  have hpred := List.find?_some hfind
  unfold hasKey
  exact List.any_eq_true.mpr ⟨p, List.mem_reverse.mp hmem, hpred⟩

/-- When all four required keys are present, no field is missing. -/
theorem missing_fields_eq_nil {kvs : List (String × PyVal)}
    (h1 : hasKey kvs "email" = true) (h2 : hasKey kvs "name" = true)
    (h3 : hasKey kvs "payment_amount" = true)
    (h4 : hasKey kvs "payment_description" = true) :
    missing_fields kvs = [] := by
  simp [missing_fields, h1, h2, h3, h4]

/-- Every error of the modelled `float(x)` is a `ValueError` or a
`TypeError`, hence caught by the inner handler of lines 114–116. -/
theorem pyFloat_error_vt {v : PyVal} {e : PyErr} (h : pyFloat v = .error e) :
    e.isValueOrTypeError = true := by
  cases v with
  | int n => simp [pyFloat] at h
  | bool b => cases b <;> simp [pyFloat] at h
  | float f => simp [pyFloat] at h
  | none => simp [pyFloat] at h; simp [← h, PyErr.isValueOrTypeError]
  | list xs => simp [pyFloat] at h; simp [← h, PyErr.isValueOrTypeError]
  | dict kvs => simp [pyFloat] at h; simp [← h, PyErr.isValueOrTypeError]
  | str s =>
    rcases hf : pyFloatOfString s with _ | f <;> simp [pyFloat, hf] at h
    simp [← h, PyErr.isValueOrTypeError]

/-- A suffix is found by the substring search. -/
theorem listContainsSub_of_suffix (n : List Char) : ∀ l : List Char,
    n <:+ l → listContainsSub l n = true := by
  intro l
  induction l with
  | nil =>
    intro h
    obtain rfl := List.suffix_nil.mp h
    simp [listContainsSub, List.isPrefixOf]
  | cons c t ih =>
    intro h
    unfold listContainsSub
    by_cases hp : n.isPrefixOf (c :: t)
    · simp [hp]
    · rcases List.suffix_cons_iff.mp h with rfl | h2
      · exact absurd (List.isPrefixOf_iff_prefix.mpr List.prefix_rfl) hp
      · simp [hp]
        exact ih h2

/-- A string contains every suffix of itself, in particular the part
after any prefix. -/
theorem strContains_append (a b : String) : strContains (a ++ b) b = true := by
  unfold strContains
  exact listContainsSub_of_suffix b.data (a ++ b).data ⟨a.data, by simp⟩

/-- Master lemma for mapping tenants: on a dict record
`send_email_reminder` always returns normally, and exactly one of the
two counters grows by one — on success the failure list is untouched,
on failure it grows by exactly one record. -/
theorem dict_step (oracle : Oracle) (st : St) (kvs : List (String × PyVal)) :
    ∃ st', send_email_reminder oracle st (.dict kvs) = Except.ok st' ∧
      ((st'.success_count = st.success_count + 1 ∧
        st'.failure_count = st.failure_count ∧
        st'.failed_tenants = st.failed_tenants) ∨
       (st'.success_count = st.success_count ∧
        st'.failure_count = st.failure_count + 1 ∧
        st'.failed_tenants.length = st.failed_tenants.length + 1)) := by
  unfold send_email_reminder send_email_reminder_body
  simp only [pyContains, withSt, pyGet, pyGetD, bind, Except.bind, pure, Except.pure,
    Except.toOption, Option.getD]
  rw [show ((if hasKey kvs "email" then [] else ["email"]) ++
    (if hasKey kvs "name" then [] else ["name"]) ++
    (if hasKey kvs "payment_amount" then [] else ["payment_amount"]) ++
    (if hasKey kvs "payment_description" then [] else ["payment_description"]) : List String)
    = missing_fields kvs from rfl]
  by_cases h : missing_fields kvs = []
  · rw [if_pos h]
    rcases hp : pyGetItem (PyVal.dict kvs) "payment_amount" with e | v
    · cases hvt : e.isValueOrTypeError <;> simp [hp, hvt]
    · rcases hv : pyFloat v with e | amt
      · cases hvt : e.isValueOrTypeError <;> simp [hp, hv, hvt]
      · rcases hn : pyGetItem (PyVal.dict kvs) "name" with e2 | nv
        · simp [hp, hv, hn]
        · rcases hd : pyGetItem (PyVal.dict kvs) "payment_description" with e3 | dv
          · simp [hp, hv, hn, hd]
          · rcases he : pyGetItem (PyVal.dict kvs) "email" with e4 | ev
            · simp [hp, hv, hn, hd, he]
            · cases ho : oracle st.sends.length <;> simp [hp, hv, hn, hd, he, ho]
  · rw [if_neg h]
    simp

/-- The tenant loop on a list of mapping records: no exception escapes,
the two counters together grow by exactly the number of records, and
the `failure_count = |failed_tenants|` invariant is preserved. -/
theorem runTenantLoop_dicts (oracle : Oracle) : ∀ (ts : List PyVal) (st : St),
    (∀ t ∈ ts, ∃ kvs, t = PyVal.dict kvs) →
    ∃ st', runTenantLoop oracle ts st = Except.ok st' ∧
      st'.success_count + st'.failure_count =
        st.success_count + st.failure_count + ts.length ∧
      (st.failure_count = st.failed_tenants.length →
        st'.failure_count = st'.failed_tenants.length) := by
  intro ts
  induction ts with
  | nil =>
    intro st _
    exact ⟨st, rfl, by simp, fun h => h⟩
  | cons t ts ih =>
    intro st hall
    obtain ⟨kvs, rfl⟩ := hall t (List.mem_cons_self t ts)
    obtain ⟨st1, hstep, hinc⟩ := dict_step oracle st kvs
    obtain ⟨st', hloop, hsum, hinv⟩ :=
      ih st1 (fun u hu => hall u (List.mem_cons_of_mem _ hu))
    refine ⟨st', ?_, ?_, ?_⟩
    · simp [runTenantLoop, hstep, hloop]
    · rcases hinc with ⟨hs, hf, _⟩ | ⟨hs, hf, _⟩ <;> rw [hsum, hs, hf] <;>
        simp [List.length_cons] <;> omega
    · intro h0
      rcases hinc with ⟨hs, hf, hl⟩ | ⟨hs, hf, hl⟩
      · exact hinv (by rw [hf, h0, hl])
      · exact hinv (by omega)

/-- `send_emails_to_all_tenants` on a list of mapping records returns
normally. -/
theorem send_emails_dicts_ok (oracle : Oracle) (ts : List PyVal) (st : St)
    (h : ∀ t ∈ ts, ∃ kvs, t = PyVal.dict kvs) :
    ∃ st', send_emails_to_all_tenants oracle ts st = Except.ok st' := by
  match ts with
  | [] => exact ⟨st, rfl⟩
  | t :: ts =>
    obtain ⟨st', hst, _⟩ := runTenantLoop_dicts oracle (t :: ts) st h
    exact ⟨st', hst⟩

/-- On a tenant record holding all four required fields with a
convertible amount, `send_email_reminder` renders the fixed template
with the tenant's values (`property_location` defaulting to "N/A") and
attempts exactly one send to the record's email value, whatever the
SMTP outcome. -/
theorem valid_dict_send (oracle : Oracle) (st : St) (kvs : List (String × PyVal))
    (ev nv av dv : PyVal) (amt : PyFloat)
    (hE : dictGet kvs "email" = some ev) (hN : dictGet kvs "name" = some nv)
    (hA : dictGet kvs "payment_amount" = some av)
    (hD : dictGet kvs "payment_description" = some dv)
    (hF : pyFloat av = Except.ok amt) :
    ∃ st', send_email_reminder oracle st (.dict kvs) = Except.ok st' ∧
      st'.sends = st.sends ++
        [(pyStr ev, renderBody (pyStr nv) (formatDot2f amt)
          (pyStr ((dictGet kvs "property_location").getD (.str "N/A"))) (pyStr dv))] := by
  have h1 := hasKey_of_dictGet hE
  have h2 := hasKey_of_dictGet hN
  have h3 := hasKey_of_dictGet hA
  have h4 := hasKey_of_dictGet hD
  have hm := missing_fields_eq_nil h1 h2 h3 h4
  unfold send_email_reminder send_email_reminder_body
  simp only [pyContains, withSt, pyGet, pyGetD, bind, Except.bind, pure, Except.pure,
    Except.toOption, Option.getD]
  rw [show ((if hasKey kvs "email" then [] else ["email"]) ++
    (if hasKey kvs "name" then [] else ["name"]) ++
    (if hasKey kvs "payment_amount" then [] else ["payment_amount"]) ++
    (if hasKey kvs "payment_description" then [] else ["payment_description"]) : List String)
    = missing_fields kvs from rfl, if_pos hm]
  simp only [pyGetItem, hE, hN, hA, hD, hF]
  cases ho : oracle st.sends.length <;> simp [ho]

/-- One tenant step started with extra counter state piled in front (as
if a previous run's globals had survived) produces exactly the same
delta: results commute with `addPrior`.  The send-attempt list is the
same in both runs, so the SMTP oracle is consulted identically. -/
theorem step_shift (oracle : Oracle) (t : PyVal) (a b : ℕ) (l : List FailedTenant) (st : St) :
    send_email_reminder oracle (addPrior a b l st) t =
      mapShift (addPrior a b l) (send_email_reminder oracle st t) := by
  cases t with
  | none =>
    simp [send_email_reminder, send_email_reminder_body, pyContains, withSt,
      pyGet, bind, Except.bind, mapShift, addPrior]
  | bool v =>
    simp [send_email_reminder, send_email_reminder_body, pyContains, withSt,
      pyGet, bind, Except.bind, mapShift, addPrior]
  | int n =>
    simp [send_email_reminder, send_email_reminder_body, pyContains, withSt,
      pyGet, bind, Except.bind, mapShift, addPrior]
  | float f =>
    simp [send_email_reminder, send_email_reminder_body, pyContains, withSt,
      pyGet, bind, Except.bind, mapShift, addPrior]
  | str s =>
    unfold send_email_reminder send_email_reminder_body
    simp only [pyContains, withSt, pyGet, pyGetD, pyGetItem, bind, Except.bind, pure,
      Except.pure, Except.toOption, Option.getD, PyErr.isValueOrTypeError]
    cases hm1 : listContainsSub s.data "email".data <;>
      cases hm2 : listContainsSub s.data "name".data <;>
      cases hm3 : listContainsSub s.data "payment_amount".data <;>
      cases hm4 : listContainsSub s.data "payment_description".data <;>
      simp [hm1, hm2, hm3, hm4, mapShift, addPrior, Nat.add_assoc, List.append_assoc]
  | list xs =>
    unfold send_email_reminder send_email_reminder_body
    simp only [pyContains, withSt, pyGet, pyGetD, pyGetItem, bind, Except.bind, pure,
      Except.pure, Except.toOption, Option.getD, PyErr.isValueOrTypeError]
    cases hm1 : xs.any (fun x => match x with | PyVal.str s => s == "email" | _ => false) <;>
      cases hm2 : xs.any (fun x => match x with | PyVal.str s => s == "name" | _ => false) <;>
      cases hm3 : xs.any (fun x => match x with | PyVal.str s => s == "payment_amount" | _ => false) <;>
      cases hm4 : xs.any (fun x => match x with | PyVal.str s => s == "payment_description" | _ => false) <;>
      simp [hm1, hm2, hm3, hm4, mapShift, addPrior, Nat.add_assoc, List.append_assoc]
  | dict kvs =>
    unfold send_email_reminder send_email_reminder_body
    simp only [pyContains, withSt, pyGet, pyGetD, bind, Except.bind, pure, Except.pure,
      Except.toOption, Option.getD]
    rw [show ((if hasKey kvs "email" then [] else ["email"]) ++
      (if hasKey kvs "name" then [] else ["name"]) ++
      (if hasKey kvs "payment_amount" then [] else ["payment_amount"]) ++
      (if hasKey kvs "payment_description" then [] else ["payment_description"]) : List String)
      = missing_fields kvs from rfl]
    by_cases h : missing_fields kvs = []
    · simp only [h, reduceIte]
      rcases hp : pyGetItem (PyVal.dict kvs) "payment_amount" with e | v
      · cases hvt : e.isValueOrTypeError <;>
          simp [hp, hvt, mapShift, addPrior, Nat.add_assoc, List.append_assoc]
      · rcases hv : pyFloat v with e | amt
        · cases hvt : e.isValueOrTypeError <;>
            simp [hp, hv, hvt, mapShift, addPrior, Nat.add_assoc, List.append_assoc]
        · rcases hn : pyGetItem (PyVal.dict kvs) "name" with e2 | nv
          · simp [hp, hv, hn, mapShift, addPrior, Nat.add_assoc, List.append_assoc]
          · rcases hd : pyGetItem (PyVal.dict kvs) "payment_description" with e3 | dv
            · simp [hp, hv, hn, hd, mapShift, addPrior, Nat.add_assoc, List.append_assoc]
            · rcases he : pyGetItem (PyVal.dict kvs) "email" with e4 | ev
              · simp [hp, hv, hn, hd, he, mapShift, addPrior, Nat.add_assoc, List.append_assoc]
              · have hsends : (addPrior a b l st).sends = st.sends := rfl
                rw [hsends]
                cases ho : oracle st.sends.length <;>
                  simp [hp, hv, hn, hd, he, ho, mapShift, addPrior, Nat.add_assoc,
                    List.append_assoc]
    · rw [if_neg h, if_neg h]
      simp [mapShift, addPrior, Nat.add_assoc, List.append_assoc]

/-- The whole tenant loop commutes with prior counter state: the
success/failure deltas and the appended failure records of a run depend
only on the tenant list and the SMTP oracle. -/
theorem runTenantLoop_shift (oracle : Oracle) (ts : List PyVal) : ∀ (st : St) (a b : ℕ)
    (l : List FailedTenant),
    runTenantLoop oracle ts (addPrior a b l st) =
      mapShift (addPrior a b l) (runTenantLoop oracle ts st) := by
  induction ts with
  | nil => intro st a b l; simp [runTenantLoop, mapShift]
  | cons t ts ih =>
    intro st a b l
    simp only [runTenantLoop]
    rw [step_shift]
    cases h : send_email_reminder oracle st t with
    | ok st1 => simp [mapShift, ih]
    | error r => rcases r with ⟨st1, e⟩; simp [mapShift]

set_option maxRecDepth 1000000

/-- C1 (amended to mapping records): for every tenant record that is a
mapping, processing never raises past the per-tenant boundary — every
error during validation, rendering or sending is caught inside
`send_email_reminder` — and a loop over any list of mapping records
always runs to completion. -/
theorem C1_mapping_fault_isolation :
    (∀ (oracle : Oracle) (st : St) (kvs : List (String × PyVal)),
      ∃ st', send_email_reminder oracle st (PyVal.dict kvs) = Except.ok st') ∧
    (∀ (oracle : Oracle) (ts : List PyVal) (st : St),
      (∀ t ∈ ts, ∃ kvs, t = PyVal.dict kvs) →
      ∃ st', runTenantLoop oracle ts st = Except.ok st') := by
  constructor
  · intro oracle st kvs
    obtain ⟨st', h, _⟩ := dict_step oracle st kvs
    exact ⟨st', h⟩
  · intro oracle ts st h
    obtain ⟨st', h', _⟩ := runTenantLoop_dicts oracle ts st h
    exact ⟨st', h'⟩

/-- C1 witness: the batch of one mapping tenant record completes. -/
theorem C1_mapping_fault_isolation_witness :
    ∃ st', runTenantLoop (fun _ => SendOutcome.ok) [tenantJo] initialState = Except.ok st' :=
  C1_mapping_fault_isolation.2 (fun _ => SendOutcome.ok) [tenantJo] initialState
    (by intro t ht; simp only [List.mem_singleton] at ht; subst ht; exact ⟨_, rfl⟩)

/-- C1 counterexample: on the non-mapping tenant value `5` (a legal
entry of the `TENANTS` JSON array), the `except Exception` handler
itself raises `AttributeError` (evaluating `tenant.get('email', …)` on
an `int`), so the exception escapes `send_email_reminder` — the claim's
"for any tenant value including non-mapping values" fails. -/
theorem C1_nonmapping_raises_counterexample :
    send_email_reminder (fun _ => SendOutcome.ok) initialState (PyVal.int 5) =
      Except.error (initialState, PyErr.attributeError "object has no attribute get") := rfl

/-- C2 (amended to mapping records): for every tenant list of mapping
records and every SMTP behaviour, the run enters exactly the two phases
`SendingReminders` then `SendingLog`, in that order. -/
theorem C2_two_phases :
    ∀ (oracle : Oracle) (logOutcome : SendOutcome) (ts : List PyVal),
      (∀ t ∈ ts, ∃ kvs, t = PyVal.dict kvs) →
      (check_and_send_email oracle logOutcome ts).phases =
        [Phase.SendingReminders, Phase.SendingLog] := by
  intro oracle lo ts h
  obtain ⟨st', hok⟩ := send_emails_dicts_ok oracle ts initialState h
  simp [check_and_send_email, hok, send_log_email]

/-- C2 witness: a one-mapping-tenant run enters both phases in order. -/
theorem C2_two_phases_witness :
    (check_and_send_email (fun _ => SendOutcome.ok) SendOutcome.ok [tenantJo]).phases =
      [Phase.SendingReminders, Phase.SendingLog] :=
  C2_two_phases (fun _ => SendOutcome.ok) SendOutcome.ok [tenantJo]
    (by intro t ht; simp only [List.mem_singleton] at ht; subst ht; exact ⟨_, rfl⟩)

/-- C2 counterexample: with the tenant list `[5]` the reminder phase
raises, so the log-email phase is never reached — "for every tenant
list … the log-email phase is still reached" fails. -/
theorem C2_log_phase_skipped_counterexample :
    (check_and_send_email (fun _ => SendOutcome.ok) SendOutcome.ok [PyVal.int 5]).phases =
      [Phase.SendingReminders] := rfl

/-- C5: a mapping tenant record missing at least one required field is
skipped — no send is attempted, the failure counter grows by one, the
success counter and send list are unchanged, and exactly one failure
record is appended whose reason lists precisely the absent required
fields, in source order. -/
theorem C5_missing_fields_failure (oracle : Oracle) (st : St)
    (kvs : List (String × PyVal)) (h : missing_fields kvs ≠ []) :
    send_email_reminder oracle st (.dict kvs) =
      Except.ok { st with
        failure_count := st.failure_count + 1,
        failed_tenants := st.failed_tenants ++
          [⟨(dictGet kvs "name").getD (.str "Unknown"),
            (dictGet kvs "email").getD (.str "Unknown"),
            "Missing fields: " ++ ", ".intercalate (missing_fields kvs)⟩] } ∧
    missing_fields kvs = required_fields.filter (fun f => !(hasKey kvs f)) := by
  refine ⟨?_, missing_fields_eq_filter kvs⟩
  unfold send_email_reminder send_email_reminder_body
  simp only [pyContains, withSt, pyGet, pyGetD, bind, Except.bind, pure, Except.pure]
  rw [show ((if hasKey kvs "email" then [] else ["email"]) ++
    (if hasKey kvs "name" then [] else ["name"]) ++
    (if hasKey kvs "payment_amount" then [] else ["payment_amount"]) ++
    (if hasKey kvs "payment_description" then [] else ["payment_description"]) : List String)
    = missing_fields kvs from rfl]
  rw [if_neg h]
  simp [withSt, pyGet, pyGetD, Except.toOption]

/-- C5 witness: the record `{name: "Z"}` is skipped with the three
missing fields named. -/
theorem C5_missing_fields_failure_witness :
    missing_fields [("name", PyVal.str "Z")] ≠ [] ∧
    send_email_reminder (fun _ => SendOutcome.ok) initialState
        (PyVal.dict [("name", PyVal.str "Z")]) =
      Except.ok ⟨0, 1, [⟨PyVal.str "Z", PyVal.str "Unknown",
        "Missing fields: email, payment_amount, payment_description"⟩], []⟩ := by
  refine ⟨by decide, ?_⟩
  exact ((C5_missing_fields_failure (fun _ => SendOutcome.ok) initialState
    [("name", PyVal.str "Z")] (by decide)).1).trans rfl

/-- C6: a mapping tenant record with all required fields whose
`payment_amount` does not convert to a float is skipped — no send is
attempted, one failure record is appended, and its reason embeds the
literal bad value (via `str`). -/
theorem C6_invalid_amount_failure (oracle : Oracle) (st : St)
    (kvs : List (String × PyVal)) (v : PyVal) (e : PyErr)
    (hm : missing_fields kvs = [])
    (hv : dictGet kvs "payment_amount" = some v)
    (he : pyFloat v = Except.error e) :
    send_email_reminder oracle st (.dict kvs) =
      Except.ok { st with
        failure_count := st.failure_count + 1,
        failed_tenants := st.failed_tenants ++
          [⟨(dictGet kvs "name").getD (.str "Unknown"),
            (dictGet kvs "email").getD (.str "Unknown"),
            "Invalid payment_amount: " ++ pyStr v⟩] } ∧
    strContains ("Invalid payment_amount: " ++ pyStr v) (pyStr v) = true := by
  constructor
  · have hvt := pyFloat_error_vt he
    unfold send_email_reminder send_email_reminder_body
    simp only [pyContains, withSt, pyGet, pyGetD, bind, Except.bind, pure, Except.pure,
      Except.toOption, Option.getD]
    rw [show ((if hasKey kvs "email" then [] else ["email"]) ++
      (if hasKey kvs "name" then [] else ["name"]) ++
      (if hasKey kvs "payment_amount" then [] else ["payment_amount"]) ++
      (if hasKey kvs "payment_description" then [] else ["payment_description"]) : List String)
      = missing_fields kvs from rfl, if_pos hm]
    simp only [pyGetItem, hv, he, hvt]
    simp [hv]
  · exact strContains_append "Invalid payment_amount: " (pyStr v)

/-- C6 witness: `payment_amount = "abc"` is rejected and the reason
carries the literal `abc`. -/
theorem C6_invalid_amount_failure_witness :
    missing_fields [("email", PyVal.str "e@x.com"), ("name", PyVal.str "N"),
      ("payment_amount", PyVal.str "abc"), ("payment_description", PyVal.str "d")] = [] ∧
    pyFloat (PyVal.str "abc") =
      Except.error (PyErr.valueError "could not convert string to float: abc") ∧
    send_email_reminder (fun _ => SendOutcome.ok) initialState
        (PyVal.dict [("email", PyVal.str "e@x.com"), ("name", PyVal.str "N"),
          ("payment_amount", PyVal.str "abc"), ("payment_description", PyVal.str "d")]) =
      Except.ok ⟨0, 1, [⟨PyVal.str "N", PyVal.str "e@x.com",
        "Invalid payment_amount: abc"⟩], []⟩ := by
  refine ⟨by decide, rfl, ?_⟩
  exact ((C6_invalid_amount_failure (fun _ => SendOutcome.ok) initialState
    [("email", PyVal.str "e@x.com"), ("name", PyVal.str "N"),
     ("payment_amount", PyVal.str "abc"), ("payment_description", PyVal.str "d")]
    (PyVal.str "abc") (PyErr.valueError "could not convert string to float: abc")
    (by decide) rfl rfl).1).trans rfl

/-- C7: a valid mapping tenant record leads to exactly one attempted
send, whose HTML body is the fixed template with the tenant's name, the
amount formatted `$…` to two decimals, the description, and
`property_location` defaulting to "N/A"; in particular the spec's
example tenant yields a message containing `$950.50`, `Jo` and
`May rent`, with exactly one send attempted, whatever the SMTP
outcome. -/
theorem C7_render_and_single_send :
    (∀ (oracle : Oracle) (st : St) (kvs : List (String × PyVal))
      (ev nv av dv : PyVal) (amt : PyFloat),
      dictGet kvs "email" = some ev → dictGet kvs "name" = some nv →
      dictGet kvs "payment_amount" = some av →
      dictGet kvs "payment_description" = some dv →
      pyFloat av = Except.ok amt →
      ∃ st', send_email_reminder oracle st (.dict kvs) = Except.ok st' ∧
        st'.sends = st.sends ++
          [(pyStr ev, renderBody (pyStr nv) (formatDot2f amt)
            (pyStr ((dictGet kvs "property_location").getD (.str "N/A"))) (pyStr dv))]) ∧
    (∀ oracle : Oracle, ∃ st',
      send_email_reminder oracle initialState tenantJo = Except.ok st' ∧
      st'.sends.length = 1 ∧
      ∀ p ∈ st'.sends, strContains p.2 "$950.50" = true ∧
        strContains p.2 "Jo" = true ∧ strContains p.2 "May rent" = true) := by
  constructor
  · exact fun oracle st kvs ev nv av dv amt hE hN hA hD hF =>
      valid_dict_send oracle st kvs ev nv av dv amt hE hN hA hD hF
  · intro oracle
    obtain ⟨st', hok, hsends⟩ := valid_dict_send oracle initialState
      [("email", .str "a@x.com"), ("name", .str "Jo"), ("payment_amount", .str "950.5"),
       ("payment_description", .str "May rent")]
      (.str "a@x.com") (.str "Jo") (.str "950.5") (.str "May rent")
      (.finite ⟨9505, 10⟩) rfl rfl rfl rfl rfl
    refine ⟨st', hok, ?_, ?_⟩
    · rw [hsends]; rfl
    · intro p hp
      rw [hsends] at hp
      simp only [initialState, List.nil_append, List.mem_singleton] at hp
      subst hp
      exact ⟨by decide, by decide, by decide⟩

/-- C7 witness: the general branch applied to the spec's example
tenant. -/
theorem C7_render_and_single_send_witness :
    ∃ st', send_email_reminder (fun _ => SendOutcome.ok) initialState
        (PyVal.dict [("email", PyVal.str "a@x.com"), ("name", PyVal.str "Jo"),
          ("payment_amount", PyVal.str "950.5"), ("payment_description", PyVal.str "May rent")]) =
        Except.ok st' ∧
      st'.sends = initialState.sends ++
        [(pyStr (PyVal.str "a@x.com"), renderBody (pyStr (PyVal.str "Jo"))
          (formatDot2f (PyFloat.finite ⟨9505, 10⟩))
          (pyStr ((dictGet [("email", PyVal.str "a@x.com"), ("name", PyVal.str "Jo"),
            ("payment_amount", PyVal.str "950.5"), ("payment_description", PyVal.str "May rent")]
            "property_location").getD (PyVal.str "N/A")))
          (pyStr (PyVal.str "May rent")))] :=
  C7_render_and_single_send.1 (fun _ => SendOutcome.ok) initialState
    [("email", PyVal.str "a@x.com"), ("name", PyVal.str "Jo"),
     ("payment_amount", PyVal.str "950.5"), ("payment_description", PyVal.str "May rent")]
    (PyVal.str "a@x.com") (PyVal.str "Jo") (PyVal.str "950.5") (PyVal.str "May rent")
    (PyFloat.finite ⟨9505, 10⟩) rfl rfl rfl rfl rfl

/-- C8: in the three-tenant scenario (only tenant #2 invalid, SMTP
succeeding), the run ends with `success_count = 2`, `failure_count = 1`,
tenant #2's name and email in the single failure record, and one send
attempted for each of tenants #1 and #3, in list order. -/
theorem C8_three_tenant_scenario :
    send_emails_to_all_tenants (fun _ => SendOutcome.ok)
        [tenantOne, tenantTwo, tenantThree] initialState =
      Except.ok ⟨2, 1,
        [⟨PyVal.str "Bob", PyVal.str "t2@x.com", "Missing fields: payment_amount"⟩],
        [("t1@x.com", renderBody "Ann" "100.00" "N/A" "rent"),
         ("t3@x.com", renderBody "Cal" "200.00" "N/A" "rent")]⟩ := rfl

/-- C3 (amended): a missing/empty required setting or an unparsable
port terminates the process with exit code 1 before any SMTP session is
opened (the result is independent of the SMTP layer and carries no
sends); otherwise — provided every loaded tenant record is a mapping —
the run completes with exit code 0 regardless of individual tenant-send
outcomes. -/
theorem C3_exit_codes :
    (∀ (env : Env) (oracle₁ oracle₂ : Oracle) (lo₁ lo₂ : SendOutcome),
      missing_smtp_vars env ≠ [] →
      runScript env oracle₁ lo₁ = ScriptResult.configExit (missing_smtp_vars env) ∧
      (runScript env oracle₁ lo₁).exitCode = 1 ∧
      (runScript env oracle₁ lo₁).sends = [] ∧
      runScript env oracle₁ lo₁ = runScript env oracle₂ lo₂) ∧
    (∀ (env : Env) (oracle₁ oracle₂ : Oracle) (lo₁ lo₂ : SendOutcome),
      missing_smtp_vars env = [] →
      pyIntOfString (env.SMTP_PORT.getD "") = Option.none →
      runScript env oracle₁ lo₁ = ScriptResult.portExit (env.SMTP_PORT.getD "") ∧
      (runScript env oracle₁ lo₁).exitCode = 1 ∧
      (runScript env oracle₁ lo₁).sends = [] ∧
      runScript env oracle₁ lo₁ = runScript env oracle₂ lo₂) ∧
    (∀ (env : Env) (oracle : Oracle) (lo : SendOutcome) (p : ℤ),
      missing_smtp_vars env = [] →
      pyIntOfString (env.SMTP_PORT.getD "") = some p →
      (∀ t ∈ (load_TENANTS env.TENANTS).tenants, ∃ kvs, t = PyVal.dict kvs) →
      ∃ st, runScript env oracle lo = ScriptResult.completed st ∧
        (runScript env oracle lo).exitCode = 0) := by
  refine ⟨?_, ?_, ?_⟩
  · intro env o₁ o₂ lo₁ lo₂ h
    cases hm : missing_smtp_vars env with
    | nil => exact absurd hm h
    | cons a t =>
      refine ⟨?_, ?_, ?_, ?_⟩ <;>
        simp [runScript, hm, ScriptResult.exitCode, ScriptResult.sends]
  · intro env o₁ o₂ lo₁ lo₂ hm hp
    refine ⟨?_, ?_, ?_, ?_⟩ <;>
      simp [runScript, hm, hp, ScriptResult.exitCode, ScriptResult.sends]
  · intro env oracle lo p hm hp hall
    obtain ⟨st', hok⟩ := send_emails_dicts_ok oracle (load_TENANTS env.TENANTS).tenants
      initialState hall
    refine ⟨st', ?_, ?_⟩ <;>
      simp [runScript, hm, hp, check_and_send_email, hok, send_log_email,
        ScriptResult.exitCode]

/-- C3 witness: an environment with every setting but the port empty
exits 1; a complete environment with an empty tenant array completes
with exit 0. -/
theorem C3_exit_codes_witness :
    (runScript ⟨some "h", Option.none, some "a", some "p", some "ll", some "[]"⟩
      (fun _ => SendOutcome.ok) SendOutcome.ok).exitCode = 1 ∧
    (∃ st, runScript ⟨some "h", some "587", some "a", some "p", some "ll", some "[]"⟩
        (fun _ => SendOutcome.ok) SendOutcome.ok = ScriptResult.completed st ∧
      (runScript ⟨some "h", some "587", some "a", some "p", some "ll", some "[]"⟩
        (fun _ => SendOutcome.ok) SendOutcome.ok).exitCode = 0) := by
  constructor
  · exact (C3_exit_codes.1 ⟨some "h", Option.none, some "a", some "p", some "ll", some "[]"⟩
      (fun _ => SendOutcome.ok) (fun _ => SendOutcome.ok) SendOutcome.ok SendOutcome.ok
      (by decide)).2.1
  · exact C3_exit_codes.2.2 ⟨some "h", some "587", some "a", some "p", some "ll", some "[]"⟩
      (fun _ => SendOutcome.ok) SendOutcome.ok 587 rfl rfl
      (by intro t ht
          rw [show (load_TENANTS (Env.TENANTS ⟨some "h", some "587", some "a", some "p",
            some "ll", some "[]"⟩)).tenants = [] from rfl] at ht
          exact absurd ht (List.not_mem_nil t))

/-- C3 counterexample: with all five settings present and a parsable
port but `TENANTS = "[5]"`, the run crashes on the non-mapping record
and the process exit code is 1, where the claim requires 0. -/
theorem C3_nonzero_exit_counterexample :
    missing_smtp_vars envWithIntTenant = [] ∧
    pyIntOfString (envWithIntTenant.SMTP_PORT.getD "") = some 587 ∧
    (runScript envWithIntTenant (fun _ => SendOutcome.ok) SendOutcome.ok).exitCode = 1 :=
  ⟨rfl, rfl, rfl⟩

/-- C4: an absent/empty `TENANTS` variable, unparsable JSON, or JSON
that is not an array each yield the empty tenant list with a logged
error; a JSON array is taken as the tenant list; and in an otherwise
well-configured run the empty-tenant outcome still completes both
phases (the process does not exit). -/
theorem C4_tenants_loading :
    (∀ v : Option String, falsy v = true → load_TENANTS v = ⟨[], true⟩) ∧
    (∀ v : Option String, json_loads (v.getD "") = Option.none →
      load_TENANTS v = ⟨[], true⟩) ∧
    (∀ (v : Option String) (w : PyVal), json_loads (v.getD "") = some w →
      (∀ xs, w ≠ PyVal.list xs) → load_TENANTS v = ⟨[], true⟩) ∧
    (∀ (s : String) (xs : List PyVal), falsy (some s) = false →
      json_loads s = some (PyVal.list xs) → load_TENANTS (some s) = ⟨xs, false⟩) ∧
    (∀ (env : Env) (oracle : Oracle) (lo : SendOutcome) (p : ℤ),
      missing_smtp_vars env = [] →
      pyIntOfString (env.SMTP_PORT.getD "") = some p →
      load_TENANTS env.TENANTS = ⟨[], true⟩ →
      ∃ st, runScript env oracle lo = ScriptResult.completed st ∧
        (check_and_send_email oracle lo (load_TENANTS env.TENANTS).tenants).phases =
          [Phase.SendingReminders, Phase.SendingLog]) := by
  refine ⟨?_, ?_, ?_, ?_, ?_⟩
  · intro v h
    simp [load_TENANTS, h]
  · intro v hj
    by_cases hf : falsy v
    · simp [load_TENANTS, hf]
    · simp [load_TENANTS, hf, hj]
  · intro v w hj hnl
    by_cases hf : falsy v
    · simp [load_TENANTS, hf]
    · cases w with
      | list xs => exact absurd rfl (hnl xs)
      | none => simp [load_TENANTS, hf, hj]
      | bool b => simp [load_TENANTS, hf, hj]
      | int n => simp [load_TENANTS, hf, hj]
      | float f => simp [load_TENANTS, hf, hj]
      | str s => simp [load_TENANTS, hf, hj]
      | dict kvs => simp [load_TENANTS, hf, hj]
  · intro s xs hf hj
    simp [load_TENANTS, hf, hj]
  · intro env oracle lo p hm hp hl
    refine ⟨initialState, ?_, ?_⟩
    · simp [runScript, hm, hp, hl, check_and_send_email, send_emails_to_all_tenants,
        send_log_email]
    · rw [hl]
      simp [check_and_send_email, send_emails_to_all_tenants, send_log_email]

/-- C4 witness: `TENANTS = "not json"` gives the empty tenant list with
a logged error, and a well-configured run with that value still
completes both phases. -/
theorem C4_tenants_loading_witness :
    load_TENANTS (some "not json") = ⟨[], true⟩ ∧
    (∃ st, runScript ⟨some "h", some "587", some "a", some "p", some "ll",
        some "not json"⟩ (fun _ => SendOutcome.ok) SendOutcome.ok =
        ScriptResult.completed st ∧
      (check_and_send_email (fun _ => SendOutcome.ok) SendOutcome.ok
        (load_TENANTS (Env.TENANTS ⟨some "h", some "587", some "a", some "p", some "ll",
          some "not json"⟩)).tenants).phases =
        [Phase.SendingReminders, Phase.SendingLog]) :=
  ⟨C4_tenants_loading.2.1 (some "not json") rfl,
   C4_tenants_loading.2.2.2.2 ⟨some "h", some "587", some "a", some "p", some "ll",
     some "not json"⟩ (fun _ => SendOutcome.ok) SendOutcome.ok 587 rfl rfl rfl⟩

/-- C9: the pipeline is a pure function of its configuration and SMTP
behaviour — two runs from fresh counter state with identical inputs
coincide — and prior counter state only shifts results by a constant
(`addPrior`), so the per-run deltas carry no hidden state. -/
theorem C9_idempotent_runs :
    (∀ (env₁ env₂ : Env) (o₁ o₂ : Oracle) (lo₁ lo₂ : SendOutcome),
      env₁ = env₂ → o₁ = o₂ → lo₁ = lo₂ →
      runScript env₁ o₁ lo₁ = runScript env₂ o₂ lo₂) ∧
    (∀ (oracle : Oracle) (ts : List PyVal) (a b : ℕ) (l : List FailedTenant),
      addPrior a b l initialState = ⟨a, b, l, []⟩ ∧
      runTenantLoop oracle ts (addPrior a b l initialState) =
        mapShift (addPrior a b l) (runTenantLoop oracle ts initialState)) := by
  constructor
  · intro env₁ env₂ o₁ o₂ lo₁ lo₂ he ho hlo
    subst he; subst ho; subst hlo; rfl
  · intro oracle ts a b l
    exact ⟨by simp [addPrior, initialState], runTenantLoop_shift oracle ts initialState a b l⟩

/-- C9 witness: two identically configured runs coincide on a concrete
environment. -/
theorem C9_idempotent_runs_witness :
    runScript envWithIntTenant (fun _ => SendOutcome.ok) SendOutcome.ok =
      runScript envWithIntTenant (fun _ => SendOutcome.ok) SendOutcome.ok :=
  C9_idempotent_runs.1 envWithIntTenant envWithIntTenant
    (fun _ => SendOutcome.ok) (fun _ => SendOutcome.ok) SendOutcome.ok SendOutcome.ok
    rfl rfl rfl

/-- C10: every `send_email_reminder` call on a mapping record returns
normally and bumps exactly one of the two counters by one (failure
entails exactly one new failure record), preserving
`failure_count = |failed_tenants|`; over a list of `n` mapping records
from the initial state, `success_count + failure_count = n`. -/
theorem C10_counter_invariant :
    (∀ (oracle : Oracle) (st : St) (kvs : List (String × PyVal)),
      ∃ st', send_email_reminder oracle st (PyVal.dict kvs) = Except.ok st' ∧
        ((st'.success_count = st.success_count + 1 ∧
          st'.failure_count = st.failure_count ∧
          st'.failed_tenants = st.failed_tenants) ∨
         (st'.success_count = st.success_count ∧
          st'.failure_count = st.failure_count + 1 ∧
          st'.failed_tenants.length = st.failed_tenants.length + 1)) ∧
        (st.failure_count = st.failed_tenants.length →
          st'.failure_count = st'.failed_tenants.length)) ∧
    (∀ (oracle : Oracle) (ts : List PyVal),
      (∀ t ∈ ts, ∃ kvs, t = PyVal.dict kvs) →
      ∃ st', runTenantLoop oracle ts initialState = Except.ok st' ∧
        st'.success_count + st'.failure_count = ts.length ∧
        st'.failure_count = st'.failed_tenants.length) := by
  constructor
  · intro oracle st kvs
    obtain ⟨st', hok, hd⟩ := dict_step oracle st kvs
    refine ⟨st', hok, hd, ?_⟩
    intro h0
    rcases hd with ⟨hs, hf, hl⟩ | ⟨hs, hf, hl⟩
    · rw [hf, h0, hl]
    · omega
  · intro oracle ts h
    obtain ⟨st', hok, hsum, hinv⟩ := runTenantLoop_dicts oracle ts initialState h
    exact ⟨st', hok, by simpa [initialState] using hsum, hinv rfl⟩

/-- C10 witness: one valid mapping tenant gives one success, zero
failures, and the invariant holds. -/
theorem C10_counter_invariant_witness :
    ∃ st', runTenantLoop (fun _ => SendOutcome.ok) [tenantJo] initialState = Except.ok st' ∧
      st'.success_count + st'.failure_count = [tenantJo].length ∧
      st'.failure_count = st'.failed_tenants.length :=
  C10_counter_invariant.2 (fun _ => SendOutcome.ok) [tenantJo]
    (by intro t ht; simp only [List.mem_singleton] at ht; subst ht; exact ⟨_, rfl⟩)
